import Mathlib

/-!
Verification of the session/step state machine in `src/app/page.tsx`
(a multi-step, server-directed login flow).

The embedding is shallow: the four React event handlers
(`handleEmailSubmit`, `handlePasswordSubmit`, `handle2FASubmit`,
`handleBack`) become pure functions from an `AppState` (the collection of
`useState` fields) and a server outcome to a new `AppState`.  A network
call either yields a parsed JSON response (`ServerOutcome.ok`) or throws
(`ServerOutcome.transportFailure`, covering both fetch and JSON-parse
errors).  JavaScript truthiness on optional strings (`if (data.x)`,
`x || fallback`) is modelled by `optTruthy` and `jsOr`: `null`/`undefined`
and the empty string are falsy.

UI events are gated exactly by what the page renders: each form's submit
handler is only invocable at the step whose form is on screen, the text
inputs only mutate state while rendered and not disabled, and the back
button exists only at the password and 2fa steps and is disabled while
`isLoading`.
-/

/-- The `LoginStep` union type: `"email" | "password" | "2fa" | "success"`. -/
inductive LoginStep where
  | email
  | password
  | twofa
  | success
deriving DecidableEq

/-- The shape of the `challengeMetadata` object as the page consumes it
(`officeVerificationStep`, `maskedEmail`, `hasCodeLink`); other keys are
never read, so they are not modelled. -/
structure ChallengeMetadata where
  officeVerificationStep : Option String := none
  maskedEmail : Option String := none
  hasCodeLink : Bool := false
deriving DecidableEq

/-- JavaScript `String.prototype.trim`: strip whitespace from both ends
(structurally recursive over the character list). -/
def jsTrim (s : String) : String :=
  ⟨((s.data.dropWhile Char.isWhitespace).reverse.dropWhile
      Char.isWhitespace).reverse⟩

/-- JavaScript truthiness of a nullable string: `null`/`undefined` and
`""` are falsy. -/
def optTruthy : Option String → Bool
  | none => false
  | some x => x != ""

/-- JavaScript `x || d` on a nullable string `x`: the fallback `d` is used
when `x` is `null`/`undefined` or empty. -/
def jsOr (x : Option String) (d : String) : String :=
  match x with
  | none => d
  | some m => if m = "" then d else m

/-- The component state: all `useState` fields of `Home`. -/
structure AppState where
  step : LoginStep
  email : String
  password : String
  twoFACode : String
  showPassword : Bool
  sessionId : Option String
  isLoading : Bool
  error : Option String
  challengeType : Option String
  challengeMetadata : Option ChallengeMetadata
deriving DecidableEq

/-- Response of `POST /office/login/initiate`:
`{ success, sessionId?, status?, message? }`. -/
structure InitiateResponse where
  success : Bool
  sessionId : Option String := none
  status : Option String := none
  message : Option String := none
deriving DecidableEq

/-- Response of `POST /office/login/password`:
`{ success, status?, challengeType?, challengeMetadata?, message? }`. -/
structure PasswordResponse where
  success : Bool
  status : Option String := none
  challengeType : Option String := none
  challengeMetadata : Option ChallengeMetadata := none
  message : Option String := none
deriving DecidableEq

/-- Response of `POST /office/2fa`:
`{ success, challengeType?, challengeMetadata?, message? }`. -/
structure TwoFAResponse where
  success : Bool
  challengeType : Option String := none
  challengeMetadata : Option ChallengeMetadata := none
  message : Option String := none
deriving DecidableEq

/-- Outcome of one `fetch` + `response.json()`: a parsed response, or a
thrown error (network or parse failure) caught by the handler's `catch`. -/
inductive ServerOutcome (ρ : Type) where
  | ok (data : ρ)
  | transportFailure
deriving DecidableEq

/-- `handleEmailSubmit`: guard `!email.trim() || isLoading`; on
`data.success` store `data.sessionId` and go to the password step (both
status branches set `"password"`); otherwise surface
`data.message || "Failed to initiate login"`; on a thrown error surface
the generic retry message; `finally` clears `isLoading`. -/
def handleEmailSubmit (s : AppState) (out : ServerOutcome InitiateResponse) :
    AppState :=
  if jsTrim s.email = "" ∨ s.isLoading = true then s
  else
    match out with
    | .transportFailure =>
        { s with error := some "An error occurred. Please try again.",
                 isLoading := false }
    | .ok data =>
        if data.success then
          { s with sessionId := data.sessionId, step := .password,
                   error := none, isLoading := false }
        else
          { s with error := some (jsOr data.message "Failed to initiate login"),
                   isLoading := false }

/-- `handlePasswordSubmit`: guard `!password.trim() || isLoading ||
!sessionId`; on `data.success` a truthy `data.challengeType` stores the
challenge and goes to 2fa, otherwise the step becomes success (the
status check's branches coincide); on failure a truthy challenge still
goes to 2fa, else the error is surfaced and the password cleared. -/
def handlePasswordSubmit (s : AppState) (out : ServerOutcome PasswordResponse) :
    AppState :=
  if jsTrim s.password = "" ∨ s.isLoading = true ∨ optTruthy s.sessionId = false
  then s
  else
    match out with
    | .transportFailure =>
        { s with error := some "An error occurred. Please try again.",
                 isLoading := false }
    | .ok data =>
        if data.success then
          if optTruthy data.challengeType then
            { s with challengeType := data.challengeType,
                     challengeMetadata := data.challengeMetadata,
                     step := .twofa, error := none, isLoading := false }
          else
            { s with step := .success, error := none, isLoading := false }
        else
          if optTruthy data.challengeType then
            { s with challengeType := data.challengeType,
                     challengeMetadata := data.challengeMetadata,
                     step := .twofa, error := none, isLoading := false }
          else
            { s with error :=
                       some (jsOr data.message "Invalid password or login failed"),
                     password := "", isLoading := false }

/-- `handle2FASubmit`: an empty code is tolerated only for the APP/PUSH
challenge types; guard `isLoading || !sessionId`; on `data.success` go to
success; otherwise a truthy `data.challengeType` replaces the challenge,
clears the code and surfaces `data.message` only when truthy; else the
error is surfaced with fallback `"Invalid code"`. -/
def handle2FASubmit (s : AppState) (out : ServerOutcome TwoFAResponse) :
    AppState :=
  if ¬(s.challengeType = some "APP" ∨ s.challengeType = some "PUSH") ∧
      jsTrim s.twoFACode = "" then s
  else if s.isLoading = true ∨ optTruthy s.sessionId = false then s
  else
    match out with
    | .transportFailure =>
        { s with error := some "An error occurred. Please try again.",
                 isLoading := false }
    | .ok data =>
        if data.success then
          { s with step := .success, error := none, isLoading := false }
        else
          if optTruthy data.challengeType then
            { s with challengeType := data.challengeType,
                     challengeMetadata := data.challengeMetadata,
                     twoFACode := "",
                     error := if optTruthy data.message then data.message
                              else none,
                     isLoading := false }
          else
            { s with error := some (jsOr data.message "Invalid code"),
                     isLoading := false }

/-- `handleBack`: password rewinds to email clearing the password, 2fa
rewinds to password clearing the code; the error is always cleared;
nothing else is touched. -/
def handleBack (s : AppState) : AppState :=
  if s.step = .password then
    { s with step := .email, password := "", error := none }
  else if s.step = .twofa then
    { s with step := .password, twoFACode := "", error := none }
  else
    { s with error := none }

/-- User-visible events of the page: typing into each rendered input,
toggling password visibility, submitting each of the three forms (the
server's outcome is the event's parameter), and the back button. -/
inductive Event where
  | typeEmail (v : String)
  | typePassword (v : String)
  | typeTwoFA (v : String)
  | toggleShowPassword
  | submitEmail (out : ServerOutcome InitiateResponse)
  | submitPassword (out : ServerOutcome PasswordResponse)
  | submitTwoFA (out : ServerOutcome TwoFAResponse)
  | back
deriving DecidableEq

/-- One UI event applied to the state.  Each event is gated by the render
conditions of `Home`: an input only exists (and is enabled) at its step
while not loading, the 2fa input additionally only when the challenge is
not APP/PUSH, each form only submits at its own step, and the back button
is rendered at password/2fa and disabled while loading.  A gated-out
event leaves the state unchanged. -/
def stepEv (s : AppState) : Event → AppState
  | .typeEmail v =>
      if s.step = .email ∧ s.isLoading = false then { s with email := v } else s
  | .typePassword v =>
      if s.step = .password ∧ s.isLoading = false then { s with password := v }
      else s
  | .typeTwoFA v =>
      if s.step = .twofa ∧
          ¬(s.challengeType = some "APP" ∨ s.challengeType = some "PUSH") ∧
          s.isLoading = false
      then { s with twoFACode := v } else s
  | .toggleShowPassword =>
      if s.step = .password then { s with showPassword := !s.showPassword }
      else s
  | .submitEmail out =>
      if s.step = .email then handleEmailSubmit s out else s
  | .submitPassword out =>
      if s.step = .password then handlePasswordSubmit s out else s
  | .submitTwoFA out =>
      if s.step = .twofa then handle2FASubmit s out else s
  | .back =>
      if (s.step = .password ∨ s.step = .twofa) ∧ s.isLoading = false then
        handleBack s
      else s

/-- The initial state of `Home`: step `"email"`, every string empty,
every nullable field `null`, `isLoading` false. -/
def initState : AppState :=
  { step := .email, email := "", password := "", twoFACode := "",
    showPassword := false, sessionId := none, isLoading := false,
    error := none, challengeType := none, challengeMetadata := none }

/-- Run a sequence of events from the initial state. -/
def run (evs : List Event) : AppState :=
  evs.foldl stepEv initState

/-- A state the page can actually be in: reachable from the initial state
by some event sequence. -/
def Reachable (s : AppState) : Prop :=
  ∃ evs : List Event, run evs = s

/-- The §6 response contract restricted to what the invariants need:
`sessionId` is required (and, being an opaque handle, truthy) on every
successful initiate response.  All other events are unconstrained. -/
def eventWF : Event → Bool
  | .submitEmail (.ok data) => !data.success || optTruthy data.sessionId
  | _ => true

/-- Reachability when the server honours the §6 initiate contract. -/
def ReachableWF (s : AppState) : Prop :=
  ∃ evs : List Event, evs.all eventWF = true ∧ run evs = s

/-- Inductive invariant of the event system: no observable state is
mid-request (each handler runs atomically between renders), the 2fa code
is empty whenever the email or password form is on screen, and a truthy
challenge is stored whenever the 2fa form is on screen. -/
def StateInv (s : AppState) : Prop :=
  s.isLoading = false ∧
  ((s.step = .email ∨ s.step = .password) → s.twoFACode = "") ∧
  (s.step = .twofa → optTruthy s.challengeType = true)

/-- Concrete event trace reaching the password (Secret) step: type an
identifier and submit it with a successful initiate response. -/
def toSecretTrace : List Event :=
  [.typeEmail "a@x.com",
   .submitEmail (.ok { success := true, sessionId := some "s1" })]

/-- Concrete event trace reaching the 2fa (SecondFactor) step:
`toSecretTrace` continued by typing a password and submitting it with a
rejected response that carries an SMS challenge. -/
def toSecondFactorTrace : List Event :=
  toSecretTrace ++
    [.typePassword "pw",
     .submitPassword (.ok { success := false, challengeType := some "SMS" })]

/-- `toSecondFactorTrace` continued by typing a 2fa code. -/
def toSecondFactorCodeTrace : List Event :=
  toSecondFactorTrace ++ [.typeTwoFA "1234"]

/-- The conditions under which `handleEmailSubmit` issues its request
(its early-return guard does not fire). -/
@[reducible] def emailGuardOpen (s : AppState) : Prop :=
  jsTrim s.email ≠ "" ∧ s.isLoading = false

/-- The conditions under which `handlePasswordSubmit` issues its request. -/
@[reducible] def passwordGuardOpen (s : AppState) : Prop :=
  jsTrim s.password ≠ "" ∧ s.isLoading = false ∧ optTruthy s.sessionId = true

/-- The conditions under which `handle2FASubmit` issues its request: a
non-blank code unless the active challenge is APP or PUSH, not loading,
and a truthy session id. -/
@[reducible] def twoFAGuardOpen (s : AppState) : Prop :=
  (s.challengeType = some "APP" ∨ s.challengeType = some "PUSH" ∨
    jsTrim s.twoFACode ≠ "") ∧
  s.isLoading = false ∧ optTruthy s.sessionId = true

/-- The specification's three-way classification of a verify-secret
response, written from the spec's words (§4.1, checked in this order:
challenge descriptor, then success flag, then rejection) for comparison
with `handlePasswordSubmit`.  Presence of the optional message is read
with JavaScript truthiness, as everywhere in the response contract. -/
def specSecretClassify (s : AppState) (r : PasswordResponse) : AppState :=
  if optTruthy r.challengeType then
    { s with challengeType := r.challengeType,
             challengeMetadata := r.challengeMetadata,
             twoFACode := "", step := .twofa, error := none,
             isLoading := false }
  else if r.success then
    { s with step := .success, error := none, isLoading := false }
  else
    { s with error := some (jsOr r.message "Invalid password or login failed"),
             password := "", isLoading := false }

theorem stateInv_initState : StateInv initState := by
  refine ⟨rfl, fun _ => rfl, fun h => by cases h⟩

theorem stateInv_stepEv (s : AppState) (e : Event) (h : StateInv s) :
    StateInv (stepEv s e) := by
  obtain ⟨h1, h2, h3⟩ := h
  cases e with
  | typeEmail v =>
      simp only [stepEv]; split <;> exact ⟨h1, h2, h3⟩
  | typePassword v =>
      simp only [stepEv]; split <;> exact ⟨h1, h2, h3⟩
  | typeTwoFA v =>
      simp only [stepEv]; split
      · rename_i hg
        refine ⟨h1, fun hc => ?_, h3⟩
        rcases hc with hc | hc <;> simp [hg.1] at hc
      · exact ⟨h1, h2, h3⟩
  | toggleShowPassword =>
      simp only [stepEv]; split <;> exact ⟨h1, h2, h3⟩
  | submitEmail out =>
      simp only [stepEv]; split
      · rename_i hg
        cases out with
        | transportFailure =>
            simp only [handleEmailSubmit]; split
            · exact ⟨h1, h2, h3⟩
            · exact ⟨rfl, h2, h3⟩
        | ok data =>
            simp only [handleEmailSubmit]; split
            · exact ⟨h1, h2, h3⟩
            · split
              · refine ⟨rfl, fun _ => h2 (Or.inl hg), fun hc => ?_⟩
                simp at hc
              · exact ⟨rfl, h2, h3⟩
      · exact ⟨h1, h2, h3⟩
  | submitPassword out =>
      simp only [stepEv]; split
      · rename_i hg
        cases out with
        | transportFailure =>
            simp only [handlePasswordSubmit]; split
            · exact ⟨h1, h2, h3⟩
            · exact ⟨rfl, h2, h3⟩
        | ok data =>
            simp only [handlePasswordSubmit]; split
            · exact ⟨h1, h2, h3⟩
            · split
              · split
                · rename_i hch
                  exact ⟨rfl, fun _ => h2 (Or.inr hg), fun _ => hch⟩
                · refine ⟨rfl, fun hc => ?_, fun hc => ?_⟩
                  · rcases hc with hc | hc <;> simp at hc
                  · simp at hc
              · split
                · rename_i hch
                  exact ⟨rfl, fun _ => h2 (Or.inr hg), fun _ => hch⟩
                · refine ⟨rfl, fun _ => h2 (Or.inr hg), fun hc => ?_⟩
                  simp [hg] at hc
      · exact ⟨h1, h2, h3⟩
  | submitTwoFA out =>
      simp only [stepEv]; split
      · rename_i hg
        cases out with
        | transportFailure =>
            simp only [handle2FASubmit]; split
            · exact ⟨h1, h2, h3⟩
            · split
              · exact ⟨h1, h2, h3⟩
              · exact ⟨rfl, h2, h3⟩
        | ok data =>
            simp only [handle2FASubmit]; split
            · exact ⟨h1, h2, h3⟩
            · split
              · exact ⟨h1, h2, h3⟩
              · split
                · refine ⟨rfl, fun hc => ?_, fun hc => ?_⟩
                  · rcases hc with hc | hc <;> simp at hc
                  · simp at hc
                · split
                  · rename_i hch
                    exact ⟨rfl, fun _ => rfl, fun _ => hch⟩
                  · refine ⟨rfl, fun hc => ?_, fun _ => h3 hg⟩
                    rcases hc with hc | hc <;> simp [hg] at hc
      · exact ⟨h1, h2, h3⟩
  | back =>
      simp only [stepEv, handleBack]; split
      · split
        · rename_i hg
          refine ⟨h1, fun _ => h2 (Or.inr hg), fun hc => ?_⟩
          simp at hc
        · split
          · refine ⟨h1, fun _ => rfl, fun hc => ?_⟩
            simp at hc
          · exact ⟨h1, h2, h3⟩
      · exact ⟨h1, h2, h3⟩

theorem stateInv_run (evs : List Event) : StateInv (run evs) := by
  rw [run]
  induction evs using List.reverseRecOn with
  | nil => exact stateInv_initState
  | append_singleton xs e ih =>
      rw [List.foldl_append, List.foldl_cons, List.foldl_nil]
      exact stateInv_stepEv _ e ih

theorem reachable_stateInv (s : AppState) (h : Reachable s) : StateInv s := by
  obtain ⟨evs, hrun⟩ := h
  exact hrun ▸ stateInv_run evs

theorem sessionIdInv_stepEv (s : AppState) (e : Event) (hwf : eventWF e = true)
    (h4 : s.step ≠ .email → optTruthy s.sessionId = true) :
    (stepEv s e).step ≠ .email → optTruthy (stepEv s e).sessionId = true := by
  cases e with
  | typeEmail v => simp only [stepEv]; split <;> exact h4
  | typePassword v => simp only [stepEv]; split <;> exact h4
  | typeTwoFA v => simp only [stepEv]; split <;> exact h4
  | toggleShowPassword => simp only [stepEv]; split <;> exact h4
  | submitEmail out =>
      simp only [stepEv]; split
      · rename_i hg
        cases out with
        | transportFailure =>
            simp only [handleEmailSubmit]; split
            · exact h4
            · exact fun hc => absurd hg hc
        | ok data =>
            simp only [handleEmailSubmit]; split
            · exact h4
            · split
              · rename_i hsucc
                simp only [eventWF, hsucc, Bool.not_true, Bool.false_or] at hwf
                exact fun _ => hwf
              · exact fun hc => absurd hg hc
      · exact h4
  | submitPassword out =>
      simp only [stepEv]; split
      · cases out with
        | transportFailure =>
            simp only [handlePasswordSubmit]; split
            · exact h4
            · rename_i hng
              simp only [not_or, Bool.not_eq_false] at hng
              exact fun _ => hng.2.2
        | ok data =>
            simp only [handlePasswordSubmit]; split
            · exact h4
            · rename_i hng
              simp only [not_or, Bool.not_eq_false] at hng
              split
              · split <;> exact fun _ => hng.2.2
              · split <;> exact fun _ => hng.2.2
      · exact h4
  | submitTwoFA out =>
      simp only [stepEv]; split
      · cases out with
        | transportFailure =>
            simp only [handle2FASubmit]; split
            · exact h4
            · split
              · exact h4
              · rename_i hng
                simp only [not_or, Bool.not_eq_false] at hng
                exact fun _ => hng.2
        | ok data =>
            simp only [handle2FASubmit]; split
            · exact h4
            · split
              · exact h4
              · rename_i hng
                simp only [not_or, Bool.not_eq_false] at hng
                split
                · exact fun _ => hng.2
                · split <;> exact fun _ => hng.2
      · exact h4
  | back =>
      simp only [stepEv, handleBack]; split
      · split
        · exact fun hc => absurd rfl hc
        · split
          · rename_i hg2
            exact fun _ => h4 (fun hc => by simp [hg2] at hc)
          · exact h4
      · exact h4

theorem sessionIdInv_run (evs : List Event) (hwf : evs.all eventWF = true) :
    (run evs).step ≠ .email → optTruthy (run evs).sessionId = true := by
  rw [run]
  induction evs using List.reverseRecOn with
  | nil => exact fun hc => absurd rfl hc
  | append_singleton xs e ih =>
      rw [List.all_append] at hwf
      simp only [List.all_cons, List.all_nil, Bool.and_true] at hwf
      rw [List.foldl_append, List.foldl_cons, List.foldl_nil]
      exact sessionIdInv_stepEv _ e (Bool.and_elim_right hwf)
        (ih (Bool.and_elim_left hwf))

theorem reachableWF_sessionId (s : AppState) (h : ReachableWF s) :
    s.step ≠ .email → optTruthy s.sessionId = true := by
  obtain ⟨evs, hwf, hrun⟩ := h
  exact hrun ▸ sessionIdInv_run evs hwf

theorem emailGuard_neg (s : AppState) (h : emailGuardOpen s) :
    ¬(jsTrim s.email = "" ∨ s.isLoading = true) := by
  obtain ⟨h1, h2⟩ := h
  simp [h1, h2]

theorem passwordGuard_neg (s : AppState) (h : passwordGuardOpen s) :
    ¬(jsTrim s.password = "" ∨ s.isLoading = true ∨
        optTruthy s.sessionId = false) := by
  obtain ⟨h1, h2, h3⟩ := h
  simp [h1, h2, h3]

theorem twoFAGuard_neg1 (s : AppState) (h : twoFAGuardOpen s) :
    ¬(¬(s.challengeType = some "APP" ∨ s.challengeType = some "PUSH") ∧
        jsTrim s.twoFACode = "") := by
  obtain ⟨h1, _, _⟩ := h
  rcases h1 with h1 | h1 | h1 <;> simp [h1]

theorem twoFAGuard_neg2 (s : AppState) (h : twoFAGuardOpen s) :
    ¬(s.isLoading = true ∨ optTruthy s.sessionId = false) := by
  obtain ⟨_, h2, h3⟩ := h
  simp [h2, h3]

/-- C7: a transport failure (network or parse error) during any of the
three submit operations leaves the state exactly as it was — same step,
identifier, secret, second-factor input and session handle — except that
`lastError` becomes the generic retry message and `inFlight` is false. -/
theorem c7_transport_failure_preserves_state (s : AppState) :
    (emailGuardOpen s →
      handleEmailSubmit s .transportFailure =
        { s with error := some "An error occurred. Please try again.",
                 isLoading := false }) ∧
    (passwordGuardOpen s →
      handlePasswordSubmit s .transportFailure =
        { s with error := some "An error occurred. Please try again.",
                 isLoading := false }) ∧
    (twoFAGuardOpen s →
      handle2FASubmit s .transportFailure =
        { s with error := some "An error occurred. Please try again.",
                 isLoading := false }) := by
  refine ⟨fun h => ?_, fun h => ?_, fun h => ?_⟩
  · rw [handleEmailSubmit, if_neg (emailGuard_neg s h)]
  · rw [handlePasswordSubmit, if_neg (passwordGuard_neg s h)]
  · rw [handle2FASubmit, if_neg (twoFAGuard_neg1 s h),
      if_neg (twoFAGuard_neg2 s h)]

/-- C7 witness: the transport-failure clauses applied at a concrete
state at each of the three steps. -/
theorem c7_transport_failure_preserves_state_witness :
    (emailGuardOpen (run [Event.typeEmail "a@x.com"]) ∧
      handleEmailSubmit (run [Event.typeEmail "a@x.com"]) .transportFailure =
        { run [Event.typeEmail "a@x.com"] with
            error := some "An error occurred. Please try again.",
            isLoading := false }) ∧
    (passwordGuardOpen (run (toSecretTrace ++ [Event.typePassword "pw"])) ∧
      handlePasswordSubmit (run (toSecretTrace ++ [Event.typePassword "pw"]))
          .transportFailure =
        { run (toSecretTrace ++ [Event.typePassword "pw"]) with
            error := some "An error occurred. Please try again.",
            isLoading := false }) ∧
    (twoFAGuardOpen (run toSecondFactorCodeTrace) ∧
      handle2FASubmit (run toSecondFactorCodeTrace) .transportFailure =
        { run toSecondFactorCodeTrace with
            error := some "An error occurred. Please try again.",
            isLoading := false }) :=
  ⟨⟨by decide, (c7_transport_failure_preserves_state _).1 (by decide)⟩,
   ⟨by decide, (c7_transport_failure_preserves_state _).2.1 (by decide)⟩,
   ⟨by decide, (c7_transport_failure_preserves_state _).2.2 (by decide)⟩⟩

/-- C8: a submit invoked while `isLoading` is true returns before doing
anything (no request, no state change), and a completed call — whether
it succeeded, was rejected, or failed in transport — always ends with
`isLoading` false, so at most one request is ever outstanding. -/
theorem c8_inflight_gate :
    (∀ (s : AppState) (o1 : ServerOutcome InitiateResponse)
        (o2 : ServerOutcome PasswordResponse)
        (o3 : ServerOutcome TwoFAResponse),
      s.isLoading = true →
        handleEmailSubmit s o1 = s ∧ handlePasswordSubmit s o2 = s ∧
          handle2FASubmit s o3 = s) ∧
    (∀ (s : AppState) (o1 : ServerOutcome InitiateResponse)
        (o2 : ServerOutcome PasswordResponse)
        (o3 : ServerOutcome TwoFAResponse),
      s.isLoading = false →
        (handleEmailSubmit s o1).isLoading = false ∧
          (handlePasswordSubmit s o2).isLoading = false ∧
            (handle2FASubmit s o3).isLoading = false) := by
  constructor
  · intro s o1 o2 o3 h
    refine ⟨?_, ?_, ?_⟩
    · rw [handleEmailSubmit.eq_def, if_pos (Or.inr h)]
    · rw [handlePasswordSubmit.eq_def, if_pos (Or.inr (Or.inl h))]
    · rw [handle2FASubmit.eq_def]
      split
      · rfl
      · rw [if_pos (Or.inl h)]
  · intro s o1 o2 o3 h
    refine ⟨?_, ?_, ?_⟩
    · cases o1 with
      | transportFailure =>
          simp only [handleEmailSubmit]; split
          · exact h
          · rfl
      | ok data =>
          simp only [handleEmailSubmit]; split
          · exact h
          · split <;> rfl
    · cases o2 with
      | transportFailure =>
          simp only [handlePasswordSubmit]; split
          · exact h
          · rfl
      | ok data =>
          simp only [handlePasswordSubmit]; split
          · exact h
          · split <;> split <;> rfl
    · cases o3 with
      | transportFailure =>
          simp only [handle2FASubmit]; split
          · exact h
          · split
            · exact h
            · rfl
      | ok data =>
          simp only [handle2FASubmit]; split
          · exact h
          · split
            · exact h
            · split
              · rfl
              · split <;> rfl

/-- C8 witness: the in-flight no-op clause and the completed-call clause
applied at concrete states with transport-failure outcomes. -/
theorem c8_inflight_gate_witness :
    ({ initState with isLoading := true } : AppState).isLoading = true ∧
    handleEmailSubmit { initState with isLoading := true } .transportFailure
        = { initState with isLoading := true } ∧
    handlePasswordSubmit { initState with isLoading := true } .transportFailure
        = { initState with isLoading := true } ∧
    handle2FASubmit { initState with isLoading := true } .transportFailure
        = { initState with isLoading := true } ∧
    initState.isLoading = false ∧
    (handleEmailSubmit initState .transportFailure).isLoading = false ∧
    (handlePasswordSubmit initState .transportFailure).isLoading = false ∧
    (handle2FASubmit initState .transportFailure).isLoading = false := by
  have h1 := c8_inflight_gate.1 { initState with isLoading := true }
    .transportFailure .transportFailure .transportFailure (by decide)
  have h2 := c8_inflight_gate.2 initState
    .transportFailure .transportFailure .transportFailure (by decide)
  exact ⟨by decide, h1.1, h1.2.1, h1.2.2, by decide, h2.1, h2.2.1, h2.2.2⟩

/-- C9: at the identifier step with a non-blank identifier, a successful
initiate response stores the returned session id and moves the step to
password regardless of the reported sub-status; and under the §6 initiate
contract no reachable state is at the password step without a truthy
stored session id. -/
theorem c9_initiate_success_stores_session :
    (∀ (s : AppState) (r : InitiateResponse) (sid : String),
      s.step = .email → emailGuardOpen s → r.success = true →
      r.sessionId = some sid →
      (stepEv s (.submitEmail (.ok r))).sessionId = some sid ∧
        (stepEv s (.submitEmail (.ok r))).step = .password) ∧
    (∀ s : AppState, ReachableWF s → s.step = .password →
      optTruthy s.sessionId = true) := by
  constructor
  · intro s r sid hstep hg hsucc hsid
    simp only [stepEv, if_pos hstep]
    rw [handleEmailSubmit, if_neg (emailGuard_neg s hg)]
    simp [hsucc, hsid]
  · intro s h hstep
    exact reachableWF_sessionId s h (by simp [hstep])

/-- C9 witness: the initiate-success clause applied after typing an
identifier, and the session-id invariant at the concrete reachable
password-step state. -/
theorem c9_initiate_success_stores_session_witness :
    (run [Event.typeEmail "a@x.com"]).step = .email ∧
    emailGuardOpen (run [Event.typeEmail "a@x.com"]) ∧
    (stepEv (run [Event.typeEmail "a@x.com"])
        (.submitEmail (.ok { success := true, sessionId := some "s1" }))).sessionId
      = some "s1" ∧
    (stepEv (run [Event.typeEmail "a@x.com"])
        (.submitEmail (.ok { success := true, sessionId := some "s1" }))).step
      = .password ∧
    ReachableWF (run toSecretTrace) ∧
    optTruthy (run toSecretTrace).sessionId = true := by
  refine ⟨by decide, by decide, ?_, ?_, ⟨toSecretTrace, by decide, rfl⟩, ?_⟩
  · exact (c9_initiate_success_stores_session.1 _ _ "s1" (by decide) (by decide)
      rfl rfl).1
  · exact (c9_initiate_success_stores_session.1 _ _ "s1" (by decide) (by decide)
      rfl rfl).2
  · exact c9_initiate_success_stores_session.2 _ ⟨toSecretTrace, by decide, rfl⟩
      (by decide)

/-- C10: in every reachable state, being at the password (Secret) step
implies the second-factor input is the empty string. -/
theorem c10_secret_step_empty_second_factor_input (s : AppState)
    (h : Reachable s) (hstep : s.step = .password) : s.twoFACode = "" :=
  (reachable_stateInv s h).2.1 (Or.inr hstep)

/-- C10 witness: the invariant at the concrete reachable password-step
state. -/
theorem c10_secret_step_empty_second_factor_input_witness :
    Reachable (run toSecretTrace) ∧ (run toSecretTrace).step = .password ∧
      (run toSecretTrace).twoFACode = "" :=
  ⟨⟨toSecretTrace, rfl⟩, by decide,
   c10_secret_step_empty_second_factor_input (run toSecretTrace)
     ⟨toSecretTrace, rfl⟩ (by decide)⟩

/-- C1 counterexample: the claim says a challengeType in a response always
takes the session to SecondFactor regardless of the success flag, but a
verify-second-factor response with `success = true` and a challengeType
moves the reachable 2fa state to Success, not SecondFactor. -/
theorem c1_challenge_precedence_counterexample :
    Reachable (run toSecondFactorCodeTrace) ∧
    (run toSecondFactorCodeTrace).step = .twofa ∧
    optTruthy ({ success := true, challengeType := some "SMS" } :
        TwoFAResponse).challengeType = true ∧
    (stepEv (run toSecondFactorCodeTrace)
        (.submitTwoFA (.ok { success := true, challengeType := some "SMS" }))).step
      = .success ∧
    (stepEv (run toSecondFactorCodeTrace)
        (.submitTwoFA (.ok { success := true, challengeType := some "SMS" }))).step
      ≠ .twofa := by
  refine ⟨⟨toSecondFactorCodeTrace, rfl⟩, ?_⟩
  decide

/-- C1 (amended): challengeType takes precedence over the success flag
only for the verify-secret call, where a truthy challenge stores the
descriptor and moves to SecondFactor regardless of success; for the
verify-second-factor call the success flag takes precedence — success
moves to Success even if a challenge is present, and the challenge is
consulted (stored, staying at SecondFactor) only when success is false.
Initiate responses carry no challenge field at all. -/
theorem c1_challenge_precedence_per_call (s : AppState) :
    (∀ r : PasswordResponse, passwordGuardOpen s →
      optTruthy r.challengeType = true →
      handlePasswordSubmit s (.ok r) =
        { s with challengeType := r.challengeType,
                 challengeMetadata := r.challengeMetadata,
                 step := .twofa, error := none, isLoading := false }) ∧
    (∀ r : TwoFAResponse, twoFAGuardOpen s → r.success = true →
      handle2FASubmit s (.ok r) =
        { s with step := .success, error := none, isLoading := false }) ∧
    (∀ r : TwoFAResponse, twoFAGuardOpen s → r.success = false →
      optTruthy r.challengeType = true →
      handle2FASubmit s (.ok r) =
        { s with challengeType := r.challengeType,
                 challengeMetadata := r.challengeMetadata,
                 twoFACode := "",
                 error := if optTruthy r.message then r.message else none,
                 isLoading := false }) := by
  refine ⟨fun r hg hch => ?_, fun r hg hsucc => ?_, fun r hg hsucc hch => ?_⟩
  · rw [handlePasswordSubmit, if_neg (passwordGuard_neg s hg)]
    cases hs : r.success <;> simp [hs, hch]
  · rw [handle2FASubmit, if_neg (twoFAGuard_neg1 s hg),
      if_neg (twoFAGuard_neg2 s hg)]
    simp [hsucc]
  · rw [handle2FASubmit, if_neg (twoFAGuard_neg1 s hg),
      if_neg (twoFAGuard_neg2 s hg)]
    simp [hsucc, hch]

/-- C1 witness: the three amended clauses applied at concrete states —
a verify-secret success that still strands a challenge, a 2fa success,
and a 2fa chained challenge. -/
theorem c1_challenge_precedence_per_call_witness :
    passwordGuardOpen (run (toSecretTrace ++ [Event.typePassword "pw"])) ∧
    handlePasswordSubmit (run (toSecretTrace ++ [Event.typePassword "pw"]))
        (.ok { success := true, challengeType := some "SMS" }) =
      { run (toSecretTrace ++ [Event.typePassword "pw"]) with
          challengeType := some "SMS", challengeMetadata := none,
          step := .twofa, error := none, isLoading := false } ∧
    twoFAGuardOpen (run toSecondFactorCodeTrace) ∧
    handle2FASubmit (run toSecondFactorCodeTrace) (.ok { success := true }) =
      { run toSecondFactorCodeTrace with
          step := .success, error := none, isLoading := false } ∧
    handle2FASubmit (run toSecondFactorCodeTrace)
        (.ok { success := false, challengeType := some "EMAIL",
               message := some "check" }) =
      { run toSecondFactorCodeTrace with
          challengeType := some "EMAIL", challengeMetadata := none,
          twoFACode := "", error := some "check", isLoading := false } := by
  refine ⟨by decide, ?_, by decide, ?_, ?_⟩
  · exact (c1_challenge_precedence_per_call _).1 _ (by decide) (by decide)
  · exact (c1_challenge_precedence_per_call _).2.1 _ (by decide) rfl
  · have h := (c1_challenge_precedence_per_call
      (run toSecondFactorCodeTrace)).2.2
      { success := false, challengeType := some "EMAIL",
        message := some "check" } (by decide) rfl (by decide)
    simpa using h

/-- C2: for every verify-secret response received in a reachable state at
the password (Secret) step with the request issued, the handler's result
is exactly the specification's ordered three-way classification: truthy
challenge first (store it, clear the 2fa input, go to SecondFactor),
then success (go to Success), else rejection (surface the message with
its fallback, clear the password, stay at Secret). -/
theorem c2_verify_secret_matches_spec_classification (s : AppState)
    (r : PasswordResponse) (h : Reachable s) (hstep : s.step = .password)
    (hg : passwordGuardOpen s) :
    handlePasswordSubmit s (.ok r) = specSecretClassify s r := by
  have hcode : s.twoFACode = "" := (reachable_stateInv s h).2.1 (Or.inr hstep)
  have hng := passwordGuard_neg s hg
  clear h hg
  obtain ⟨st, em, pw, code, sh, sid, ld, er, ch, md⟩ := s
  simp only at hcode hstep
  subst hcode hstep
  rw [handlePasswordSubmit, if_neg hng, specSecretClassify]
  cases hs : r.success <;> by_cases hch : optTruthy r.challengeType = true <;>
    simp [hs, hch]

/-- C2 witness: the classification applied at the concrete reachable
password-step state with Scenario B's rejection response. -/
theorem c2_verify_secret_matches_spec_classification_witness :
    Reachable (run (toSecretTrace ++ [Event.typePassword "pw"])) ∧
    (run (toSecretTrace ++ [Event.typePassword "pw"])).step = .password ∧
    passwordGuardOpen (run (toSecretTrace ++ [Event.typePassword "pw"])) ∧
    handlePasswordSubmit (run (toSecretTrace ++ [Event.typePassword "pw"]))
        (.ok { success := false, message := some "wrong" }) =
      specSecretClassify (run (toSecretTrace ++ [Event.typePassword "pw"]))
        { success := false, message := some "wrong" } :=
  ⟨⟨_, rfl⟩, by decide, by decide,
   c2_verify_secret_matches_spec_classification _ _ ⟨_, rfl⟩ (by decide)
     (by decide)⟩

/-- C3 counterexample: the claim says goBack at SecondFactor leaves the
challenge absent and the secret empty, but after the concrete reachable
2fa state goes back, the challenge descriptor is still stored and the
previously submitted password is still held. -/
theorem c3_goBack_clears_all_counterexample :
    Reachable (run toSecondFactorTrace) ∧
    (run toSecondFactorTrace).step = .twofa ∧
    (stepEv (run toSecondFactorTrace) .back).step = .password ∧
    (stepEv (run toSecondFactorTrace) .back).challengeType = some "SMS" ∧
    (stepEv (run toSecondFactorTrace) .back).password = "pw" := by
  refine ⟨⟨toSecondFactorTrace, rfl⟩, ?_⟩
  decide

/-- C3 (amended): goBack at the 2fa (SecondFactor) step returns to the
password (Secret) step, clears the second-factor input and the error,
and changes nothing else: the challenge descriptor and the secret keep
their previous values. -/
theorem c3_goBack_from_second_factor (s : AppState) (hstep : s.step = .twofa) :
    handleBack s =
      { s with step := .password, twoFACode := "", error := none } := by
  have h1 : ¬(s.step = .password) := by simp [hstep]
  rw [handleBack, if_neg h1, if_pos hstep]

/-- C3 witness: the amended goBack behaviour at the concrete reachable
2fa state. -/
theorem c3_goBack_from_second_factor_witness :
    (run toSecondFactorTrace).step = .twofa ∧
    handleBack (run toSecondFactorTrace) =
      { run toSecondFactorTrace with
          step := .password, twoFACode := "", error := none } :=
  ⟨by decide, c3_goBack_from_second_factor _ (by decide)⟩

/-- C4 counterexample: the claim's iff fails — after goBack from the 2fa
step, the reachable state is no longer at SecondFactor yet the challenge
descriptor is still set. -/
theorem c4_challenge_iff_second_factor_counterexample :
    Reachable (run (toSecondFactorTrace ++ [Event.back])) ∧
    (run (toSecondFactorTrace ++ [Event.back])).step ≠ .twofa ∧
    (run (toSecondFactorTrace ++ [Event.back])).challengeType = some "SMS" := by
  refine ⟨⟨_, rfl⟩, ?_⟩
  decide

/-- C4 (amended): only the forward direction holds — in every reachable
state, being at the 2fa (SecondFactor) step implies a truthy challenge
descriptor is stored; the converse fails because the descriptor persists
after goBack and after reaching Success. -/
theorem c4_second_factor_step_has_challenge (s : AppState) (h : Reachable s)
    (hstep : s.step = .twofa) : optTruthy s.challengeType = true :=
  (reachable_stateInv s h).2.2 hstep

/-- C4 witness: the forward direction at the concrete reachable 2fa
state. -/
theorem c4_second_factor_step_has_challenge_witness :
    Reachable (run toSecondFactorTrace) ∧
    (run toSecondFactorTrace).step = .twofa ∧
    optTruthy (run toSecondFactorTrace).challengeType = true :=
  ⟨⟨toSecondFactorTrace, rfl⟩, by decide,
   c4_second_factor_step_has_challenge _ ⟨toSecondFactorTrace, rfl⟩ (by decide)⟩

/-- C5 counterexample: the claim's iff fails even for a server honouring
the §6 contract — goBack from the password step returns to the
identifier step without clearing the stored session handle. -/
theorem c5_session_iff_not_identifier_counterexample :
    (toSecretTrace ++ [Event.back]).all eventWF = true ∧
    Reachable (run (toSecretTrace ++ [Event.back])) ∧
    (run (toSecretTrace ++ [Event.back])).step = .email ∧
    (run (toSecretTrace ++ [Event.back])).sessionId = some "s1" := by
  refine ⟨by decide, ⟨_, rfl⟩, ?_⟩
  decide

/-- C5 (amended): under the §6 initiate contract only the forward
direction holds — in every reachable state, being away from the
identifier step implies a truthy session handle is stored; the converse
fails because goBack to the identifier step keeps the handle. -/
theorem c5_not_identifier_has_session (s : AppState) (h : ReachableWF s)
    (hstep : s.step ≠ .email) : optTruthy s.sessionId = true :=
  reachableWF_sessionId s h hstep

/-- C5 witness: the forward direction at the concrete reachable
password-step state. -/
theorem c5_not_identifier_has_session_witness :
    ReachableWF (run toSecretTrace) ∧
    (run toSecretTrace).step ≠ .email ∧
    optTruthy (run toSecretTrace).sessionId = true :=
  ⟨⟨toSecretTrace, by decide, rfl⟩, by decide,
   c5_not_identifier_has_session _ ⟨toSecretTrace, by decide, rfl⟩ (by decide)⟩

/-- C6 counterexample: the claim says a logical rejection clears the
just-submitted secret-type field at either step, but a 2fa rejection
(success false, no challenge) leaves the submitted code in place. -/
theorem c6_rejection_clears_field_counterexample :
    Reachable (run toSecondFactorCodeTrace) ∧
    (run toSecondFactorCodeTrace).step = .twofa ∧
    (run toSecondFactorCodeTrace).twoFACode = "1234" ∧
    (stepEv (run toSecondFactorCodeTrace)
        (.submitTwoFA (.ok { success := false, message := some "wrong" }))).twoFACode
      = "1234" := by
  refine ⟨⟨_, rfl⟩, ?_⟩
  decide

/-- C6 (amended): on a logical rejection (success false, no truthy
challenge) the identifier is never cleared and `lastError` gets the
server message with a step-specific fallback; the secret is cleared at
the password (Secret) step, but the second-factor input is retained at
the 2fa (SecondFactor) step. -/
theorem c6_logical_rejection_effects (s : AppState) :
    (∀ r : PasswordResponse, passwordGuardOpen s → r.success = false →
      optTruthy r.challengeType = false →
      handlePasswordSubmit s (.ok r) =
        { s with error :=
                   some (jsOr r.message "Invalid password or login failed"),
                 password := "", isLoading := false }) ∧
    (∀ r : TwoFAResponse, twoFAGuardOpen s → r.success = false →
      optTruthy r.challengeType = false →
      handle2FASubmit s (.ok r) =
        { s with error := some (jsOr r.message "Invalid code"),
                 isLoading := false }) := by
  refine ⟨fun r hg hs hch => ?_, fun r hg hs hch => ?_⟩
  · rw [handlePasswordSubmit, if_neg (passwordGuard_neg s hg)]
    simp [hs, hch]
  · rw [handle2FASubmit, if_neg (twoFAGuard_neg1 s hg),
      if_neg (twoFAGuard_neg2 s hg)]
    simp [hs, hch]

/-- C6 witness: the two rejection clauses applied at concrete states at
the password and 2fa steps. -/
theorem c6_logical_rejection_effects_witness :
    passwordGuardOpen (run (toSecretTrace ++ [Event.typePassword "pw"])) ∧
    handlePasswordSubmit (run (toSecretTrace ++ [Event.typePassword "pw"]))
        (.ok { success := false, message := some "wrong" }) =
      { run (toSecretTrace ++ [Event.typePassword "pw"]) with
          error := some "wrong", password := "", isLoading := false } ∧
    twoFAGuardOpen (run toSecondFactorCodeTrace) ∧
    handle2FASubmit (run toSecondFactorCodeTrace)
        (.ok { success := false, message := some "bad" }) =
      { run toSecondFactorCodeTrace with
          error := some "bad", isLoading := false } := by
  refine ⟨by decide, ?_, by decide, ?_⟩
  · have h := (c6_logical_rejection_effects
      (run (toSecretTrace ++ [Event.typePassword "pw"]))).1
      { success := false, message := some "wrong" } (by decide) rfl (by decide)
    simpa using h
  · have h := (c6_logical_rejection_effects (run toSecondFactorCodeTrace)).2
      { success := false, message := some "bad" } (by decide) rfl (by decide)
    simpa using h
